import Mathlib

/-!
# Verification of the obsidian-pglite vector-store coordination layer

Shallow embedding of the vector-store + embedding-model coordination layer of
the `obsidian-pglite` plugin:

* `PGliteVectorStore` (src/storage/PGliteVectorStore.ts) — table lifecycle,
  insertion, similarity search over one vector-bearing table;
* `VectorService` (src/utils/EmbeddingHelpers.ts) / the equivalent free
  functions in src/utils/VectorHelpers.ts — coordination between the active
  embedding model and the store;
* the command layer (src/commands/VectorCommands.ts) — the
  compatibility-check-then-confirm-then-recreate protocol around insertion,
  and the table-existence guard around search;
* the display conversion in the results modal (ResultsModal.onOpen).

Modelling conventions:

* The PGlite database engine is an external collaborator.  Its state relevant
  to this layer is the single vector table: an optional `TableState` holding
  the physical column width `dim`, the rows, and the SERIAL id counter.
* Vector components are rationals (`ℚ`); the engine's `<=>` distance operator
  is an explicit `metric` parameter, since the metric's formula belongs to the
  engine, not to this layer.  `ORDER BY distance LIMIT n` is a stable sort
  on the computed distance followed by `take`.
* In pgvector the `atttypmod` of a `VECTOR(N)` column is `N` itself, so the
  dimension readback in `checkTableExists` (which parses `atttypmod` directly)
  reports the physical column width.
* Asynchronous methods that issue queries take a `fault : Bool` argument
  modelling "the underlying query throws" (the first query issued by the
  method fails); JavaScript exceptions become `Except`/explicit error results.
* State-mutating store methods return the resulting state alongside the
  `Except` result, so partially applied effects (e.g. a forced DROP followed
  by a failing CREATE) are visible.
* JavaScript truthiness on the optional dimension (`!tableInfo.dimensions`)
  is modelled by `falsyDim`: `none` and `some 0` are falsy.
-/

namespace ObsidianPGlite

/-- A stored row of the vector table:
`(id SERIAL PRIMARY KEY, content TEXT, embedding VECTOR(N))`. -/
structure VectorRow where
  id : Nat
  content : String
  embedding : List ℚ
deriving Repr, DecidableEq

/-- The physical vector table inside the engine: declared column width,
rows in insertion order, and the next SERIAL id. -/
structure TableState where
  dim : Nat
  rows : List VectorRow
  nextId : Nat
deriving Repr, DecidableEq

/-- State of a `PGliteVectorStore` together with the part of the engine state
it owns: `ready` (provider initialized), the in-memory configured
`dimensions`, and the physical `table` (`none` when absent). -/
structure StoreState where
  ready : Bool
  dimensions : Nat
  table : Option TableState
deriving Repr, DecidableEq

/-- Errors surfaced by store operations (JavaScript `throw`s). -/
inductive StoreError where
  /-- `PGlite provider is not ready` -/
  | notReady
  /-- `Failed to create vector table ...` (re-thrown with context) -/
  | createFailed
  /-- any other backend failure propagated to the caller -/
  | storeFailed
deriving Repr, DecidableEq

/-- Result shape of `checkTableExists`: `{exists: boolean, dimensions?: number}`.
The field `texists` models the TS field `exists`. -/
structure TableInfo where
  texists : Bool
  dimensions : Option Nat
deriving Repr, DecidableEq

/-- JavaScript truthiness of the optional dimension: `!tableInfo.dimensions`
is true when the field is `undefined` or `0`. -/
def falsyDim : Option Nat → Bool
  | none => true
  | some n => n == 0

/-- A row returned by the similarity search:
`SELECT id, content, embedding <=> $1 as distance`. -/
structure SearchRow where
  id : Nat
  content : String
  distance : ℚ
deriving Repr, DecidableEq

/-- Comparison used by `ORDER BY distance` (ascending). -/
def rowLE (a b : SearchRow) : Prop := a.distance ≤ b.distance

instance : DecidableRel rowLE := fun a b => inferInstanceAs (Decidable (a.distance ≤ b.distance))

instance : IsTotal SearchRow rowLE := ⟨fun a b => le_total a.distance b.distance⟩

instance : IsTrans SearchRow rowLE := ⟨fun _ _ _ h1 h2 => le_trans h1 h2⟩

instance {ε α : Type} [DecidableEq ε] [DecidableEq α] : DecidableEq (Except ε α) := fun a b =>
  match a, b with
  | .error x, .error y =>
    if h : x = y then .isTrue (congrArg Except.error h)
    else .isFalse fun hc => h (by injection hc)
  | .ok x, .ok y =>
    if h : x = y then .isTrue (congrArg Except.ok h)
    else .isFalse fun hc => h (by injection hc)
  | .error _, .ok _ => .isFalse fun hc => Except.noConfusion hc
  | .ok _, .error _ => .isFalse fun hc => Except.noConfusion hc

namespace PGliteVectorStore

/-- `isReady()`: true only if the provider is initialized. -/
def isReady (st : StoreState) : Bool := st.ready

/-- `getDimensions()`. -/
def getDimensions (st : StoreState) : Nat := st.dimensions

/-- `setDimensions(dimensions)`: updates only the in-memory intended
dimension for future `createTable` calls. -/
def setDimensions (n : Nat) (st : StoreState) : StoreState :=
  { st with dimensions := n }

/-- `checkTableExists()`: throws if not ready; then, inside `try`, queries
`pg_tables` for presence and `pg_attribute.atttypmod` for the embedding
column's width.  Any query failure is caught and reported as
`{exists: false}`. -/
def checkTableExists (fault : Bool) (st : StoreState) : Except StoreError TableInfo :=
  if st.ready = false then .error .notReady
  else if fault then .ok ⟨false, none⟩
  else
    match st.table with
    | none => .ok ⟨false, none⟩
    | some t => .ok ⟨true, some t.dim⟩

/-- `createTable(force)`: throws if not ready; if `force`, `DROP TABLE IF
EXISTS` first; then `CREATE TABLE IF NOT EXISTS` with an
`embedding VECTOR(dimensions)` column — a no-op when the table still exists.
The engine rejects `VECTOR(0)` (pgvector requires at least one dimension);
errors are re-thrown as `createFailed`.  Returns the resulting engine state
alongside the result. -/
def createTable (force : Bool) (fault : Bool) (st : StoreState) :
    Except StoreError Unit × StoreState :=
  if st.ready = false then (.error .notReady, st)
  else if fault then (.error .createFailed, st)
  else
    let st1 := if force then { st with table := none } else st
    match st1.table with
    | some _ => (.ok (), st1)
    | none =>
      if st.dimensions = 0 then (.error .createFailed, st1)
      else (.ok (), { st1 with table := some ⟨st.dimensions, [], 1⟩ })

/-- `insertVector(content, vector)`: throws if not ready; `INSERT ...
RETURNING id`.  The engine rejects the insert when the table is absent or the
vector's width differs from the declared column width (a database-level
constraint, not pre-validated here). -/
def insertVector (content : String) (vector : List ℚ) (fault : Bool) (st : StoreState) :
    Except StoreError Nat × StoreState :=
  if st.ready = false then (.error .notReady, st)
  else if fault then (.error .storeFailed, st)
  else
    match st.table with
    | none => (.error .storeFailed, st)
    | some t =>
      if vector.length = t.dim then
        (.ok t.nextId,
         { st with table := some ⟨t.dim, t.rows ++ [⟨t.nextId, content, vector⟩], t.nextId + 1⟩ })
      else (.error .storeFailed, st)

/-- `searchSimilar(vector, limit = 5)`: throws if not ready; issues
`SELECT id, content, embedding <=> $1 as distance FROM t ORDER BY distance
LIMIT $2`.  The engine computes `metric` against every stored embedding,
sorts ascending (stably, so ties keep insertion order) and returns the first
`limit` rows; the query fails when the table is absent. -/
def searchSimilar (metric : List ℚ → List ℚ → ℚ) (vector : List ℚ)
    (limit : Option Nat) (fault : Bool) (st : StoreState) :
    Except StoreError (List SearchRow) :=
  if st.ready = false then .error .notReady
  else if fault then .error .storeFailed
  else
    match st.table with
    | none => .error .storeFailed
    | some t =>
      .ok ((List.insertionSort rowLE
              (t.rows.map fun r => SearchRow.mk r.id r.content (metric vector r.embedding))).take
            (limit.getD 5))

/-- `save()`: no-op returning immediately when not ready; otherwise persists
via the provider (which re-throws failures). -/
def save (fault : Bool) (st : StoreState) : Except StoreError Unit × StoreState :=
  if st.ready = false then (.ok (), st)
  else if fault then (.error .storeFailed, st)
  else (.ok (), st)

end PGliteVectorStore

/-- The active embedding model (the `EmbeddingModel` interface): identity
metadata plus the `generateEmbedding` capability, modelled as a pure
function. -/
structure EModel where
  name : String
  dimensions : Nat
  generateEmbedding : String → List ℚ

/-- State of the `VectorService`: the active model and the store. -/
structure ServiceState where
  model : EModel
  store : StoreState

/-- Result of `checkTableCompatibility`. -/
structure CompatInfo where
  compatible : Bool
  tableDimensions : Option Nat
  modelDimensions : Nat
deriving Repr, DecidableEq

/-- The branch logic of `checkTableCompatibility` on the result of
`checkTableExists`: if `!tableInfo.exists || !tableInfo.dimensions`, trivially
compatible (no `tableDimensions` in the result); otherwise compatible iff the
reported table dimension equals the model's. -/
def compatOf (modelDims : Nat) (ti : TableInfo) : CompatInfo :=
  if ti.texists = false ∨ falsyDim ti.dimensions then
    ⟨true, none, modelDims⟩
  else
    ⟨decide (ti.dimensions = some modelDims), ti.dimensions, modelDims⟩

/-- `checkTableCompatibility(model, store)` (VectorHelpers), identical to the
method `VectorService.checkTableCompatibility`. -/
def checkTableCompatibility (model : EModel) (store : StoreState) (fault : Bool) :
    Except StoreError CompatInfo :=
  (PGliteVectorStore.checkTableExists fault store).map (compatOf model.dimensions)

/-- Result of `changeModel`. -/
structure ChangeReport where
  dimensionsChanged : Bool
  oldDimensions : Option Nat
  newDimensions : Nat
deriving Repr, DecidableEq

namespace VectorService

/-- `VectorService.checkTableCompatibility()`. -/
def checkCompat (fault : Bool) (svc : ServiceState) : Except StoreError CompatInfo :=
  checkTableCompatibility svc.model svc.store fault

/-- `VectorService.changeModel(newModel)`: swaps the model reference and
updates the store's intended dimensions via `setDimensions`; returns the
change report. -/
def changeModel (newModel : EModel) (svc : ServiceState) :
    ChangeReport × ServiceState :=
  let oldDimensions := svc.model.dimensions
  let svc' : ServiceState :=
    { model := newModel,
      store := PGliteVectorStore.setDimensions newModel.dimensions svc.store }
  (⟨decide (oldDimensions ≠ newModel.dimensions),
    if oldDimensions ≠ newModel.dimensions then some oldDimensions else none,
    newModel.dimensions⟩, svc')

/-- `VectorService.insertContent(content)`: generate the embedding, warn
(non-fatally) when its length differs from the model's declared dimensions,
insert, save, return the new id. -/
def insertContent (content : String) (fault : Bool) (svc : ServiceState) :
    Except StoreError Nat × ServiceState :=
  let vector := svc.model.generateEmbedding content
  match PGliteVectorStore.insertVector content vector fault svc.store with
  | (.error e, st') => (.error e, { svc with store := st' })
  | (.ok id, st') =>
    match PGliteVectorStore.save fault st' with
    | (.error e, st2) => (.error e, { svc with store := st2 })
    | (.ok _, st2) => (.ok id, { svc with store := st2 })

/-- `VectorService.searchSimilar(content, limit)`: generate the query
embedding, warn (non-fatally) on a length mismatch, and delegate to the
store — the store's rows are returned unchanged. -/
def searchSimilar (metric : List ℚ → List ℚ → ℚ) (content : String)
    (limit : Option Nat) (fault : Bool) (svc : ServiceState) :
    Except StoreError (List SearchRow) :=
  let vector := svc.model.generateEmbedding content
  PGliteVectorStore.searchSimilar metric vector limit fault svc.store

/-- `VectorService.recreateTable()`: `createTable(true)` then `save()`. -/
def recreateTable (fault : Bool) (svc : ServiceState) :
    Except StoreError Unit × ServiceState :=
  match PGliteVectorStore.createTable true fault svc.store with
  | (.error e, st') => (.error e, { svc with store := st' })
  | (.ok _, st') =>
    match PGliteVectorStore.save fault st' with
    | (r, st2) => (r, { svc with store := st2 })

end VectorService

/-- The similarity presentation value computed by `ResultsModal.onOpen` for
the `distance` column of a vector search: `(1 - value) * 100`, rendered as a
percentage. -/
def displaySimilarityPercent (distance : ℚ) : ℚ := (1 - distance) * 100

/-- Outcome of `InsertNoteAsVectorCommand.execute` as observed by the user. -/
inductive InsertOutcome where
  /-- `Note vector inserted with ID: ...` -/
  | inserted (id : Nat)
  /-- the `ModelChangeConfirmationModal` was opened with the model name,
  `compatibility.modelDimensions` and `compatibility.tableDimensions || 0`;
  no insertion was performed -/
  | requiresConfirmation (modelName : String) (modelDimensions : Nat) (tableDimensions : Nat)
  /-- an error notice was shown (the surrounding `try`/`catch`) -/
  | errorNotice
  /-- the confirmation modal was dismissed without confirming -/
  | cancelled
deriving Repr, DecidableEq

/-- `InsertNoteAsVectorCommand.execute(editor)`: check compatibility first;
when incompatible, open the confirmation modal (surfacing the model and table
dimensions) and return without inserting; otherwise insert the note content
via the service. -/
def InsertNoteAsVectorCommand.execute (content : String) (fault : Bool)
    (svc : ServiceState) : InsertOutcome × ServiceState :=
  match VectorService.checkCompat fault svc with
  | .error _ => (.errorNotice, svc)
  | .ok comp =>
    if comp.compatible = false then
      (.requiresConfirmation svc.model.name comp.modelDimensions
        (comp.tableDimensions.getD 0), svc)
    else
      match VectorService.insertContent content fault svc with
      | (.error _, svc') => (.errorNotice, svc')
      | (.ok id, svc') => (.inserted id, svc')

/-- The confirmation callback passed to `ModelChangeConfirmationModal`: when
confirmed, recreate the table (force) and retry the whole command; otherwise
do nothing. -/
def InsertNoteAsVectorCommand.onConfirm (content : String) (confirmed : Bool)
    (fault : Bool) (svc : ServiceState) : InsertOutcome × ServiceState :=
  if confirmed then
    match VectorService.recreateTable fault svc with
    | (.error _, svc') => (.errorNotice, svc')
    | (.ok _, svc') => InsertNoteAsVectorCommand.execute content fault svc'
  else (.cancelled, svc)

/-- Outcome of `SearchSimilarToNoteCommand.execute`. -/
inductive SearchOutcome where
  /-- the `ResultsModal` was opened with these rows -/
  | results (rows : List SearchRow)
  /-- `Vector table does not exist. Please create it first.` -/
  | noTable
  /-- an error notice was shown -/
  | errorNotice
deriving Repr, DecidableEq

/-- `SearchSimilarToNoteCommand.execute(editor, limit)`: require the table to
exist (guard via `checkTableExists`, returning the user-facing "does not
exist" notice when absent, with no search executed); otherwise delegate to
the service's `searchSimilar`. -/
def SearchSimilarToNoteCommand.execute (metric : List ℚ → List ℚ → ℚ)
    (content : String) (limit : Option Nat) (fault : Bool)
    (svc : ServiceState) : SearchOutcome :=
  match PGliteVectorStore.checkTableExists fault svc.store with
  | .error _ => .errorNotice
  | .ok ti =>
    if ti.texists = false then .noTable
    else
      match VectorService.searchSimilar metric content limit fault svc with
      | .error _ => .errorNotice
      | .ok rows => .results rows

/-- Well-formedness of reachable engine states: a physical `VECTOR(N)` column
has `N ≥ 1` (pgvector rejects `VECTOR(0)` at creation). -/
def StoreState.WF (st : StoreState) : Prop :=
  ∀ t, st.table = some t → 1 ≤ t.dim

/-! Concrete fixtures used by witnesses and counterexamples. -/

/-- A model with 768 dimensions (the "model B" of the spec's scenario). -/
def modelB : EModel := ⟨"modelB", 768, fun _ => List.replicate 768 0⟩

/-- A ready store whose physical table was created at 384 dimensions while
the configured dimension has since moved to 768. -/
def store384 : StoreState := ⟨true, 768, some ⟨384, [], 1⟩⟩

/-- A concrete engine metric used for evaluation: the distance is read off
the first component of the stored embedding. -/
def projMetric (_q e : List ℚ) : ℚ := e.headD 0

/-- A model whose `generateEmbedding` stub returns a vector of the wrong
length (2 instead of the declared 3). -/
def stubModel : EModel := ⟨"stub", 3, fun _ => [1, 1]⟩

/-- A ready store with an empty table of width 3. -/
def readyStore3 : StoreState := ⟨true, 3, some ⟨3, [], 1⟩⟩

/-- A model over 2 dimensions whose query embedding is the origin. -/
def modelC4 : EModel := ⟨"m", 2, fun _ => [0, 0]⟩

/-- A ready store with a single stored row at distance 4 from any query
under `projMetric`. -/
def storeC4 : StoreState := ⟨true, 2, some ⟨2, [⟨1, "a", [4, 0]⟩], 2⟩⟩

/-- A ready store with three rows at `projMetric` distances 3, 1, 2. -/
def storeC7 : StoreState :=
  ⟨true, 2, some ⟨2, [⟨1, "a", [3, 0]⟩, ⟨2, "b", [1, 0]⟩, ⟨3, "c", [2, 0]⟩], 4⟩⟩

/-- A ready store with no table. -/
def emptyStore : StoreState := ⟨true, 768, none⟩

/-- C1: `checkTableCompatibility` is trivially compatible when
`checkTableExists` reports the table absent or no discoverable dimension, and
otherwise compatible iff the reported table dimensions equal the model's; in
the 384-table/768-model mismatch it returns
`compatible = false, tableDimensions = 384, modelDimensions = 768`. -/
theorem C1_checkCompatibility_correct :
    (∀ (svc : ServiceState) (fault : Bool) (ti : TableInfo),
      PGliteVectorStore.checkTableExists fault svc.store = .ok ti →
      ∃ ci, VectorService.checkCompat fault svc = .ok ci ∧
        ((ti.texists = false ∨ falsyDim ti.dimensions = true) → ci.compatible = true) ∧
        (ti.texists = true → falsyDim ti.dimensions = false →
          ((ci.compatible = true) ↔ ti.dimensions = some svc.model.dimensions) ∧
          ci.tableDimensions = ti.dimensions ∧
          ci.modelDimensions = svc.model.dimensions)) ∧
    (∀ (svc : ServiceState) (rows : List VectorRow) (n : Nat),
      svc.store.ready = true → svc.store.table = some ⟨384, rows, n⟩ →
      svc.model.dimensions = 768 →
      VectorService.checkCompat false svc = .ok ⟨false, some 384, 768⟩) := by
  constructor
  · intro svc fault ti h
    refine ⟨compatOf svc.model.dimensions ti, ?_, ?_, ?_⟩
    · simp [VectorService.checkCompat, checkTableCompatibility, h, Except.map]
    · intro hcase
      rcases hcase with hne | hfd
      · simp [compatOf, hne]
      · simp [compatOf, hfd]
    · intro hex hfd
      simp [compatOf, hex, hfd]
  · intro svc rows n hready htab hdim
    simp [VectorService.checkCompat, checkTableCompatibility,
      PGliteVectorStore.checkTableExists, compatOf, falsyDim, hready, htab, hdim,
      Except.map]

/-- Witness for C1: the mismatch scenario with a 384-dimension table and a
768-dimension active model. -/
theorem C1_witness :
    VectorService.checkCompat false ⟨modelB, store384⟩ = .ok ⟨false, some 384, 768⟩ :=
  C1_checkCompatibility_correct.2 ⟨modelB, store384⟩ [] 1 rfl rfl rfl

/-- C2: after a successful `createTable(force := true)` on a ready store
configured at dimension `D ≥ 1`, `checkTableExists` reports an existing table
of exactly `D` dimensions (read back from the column's `atttypmod`), and the
in-memory dimension still equals `D`. -/
theorem C2_createTable_dimension_invariant (st : StoreState) (D : Nat)
    (hready : st.ready = true) (hdim : st.dimensions = D) (hpos : 1 ≤ D) :
    ∃ st', PGliteVectorStore.createTable true false st = (.ok (), st') ∧
      st'.dimensions = D ∧
      PGliteVectorStore.checkTableExists false st' = .ok ⟨true, some D⟩ := by
  subst hdim
  refine ⟨{ st with table := some ⟨st.dimensions, [], 1⟩ }, ?_, rfl, ?_⟩
  · simp [PGliteVectorStore.createTable, hready, Nat.one_le_iff_ne_zero.mp hpos]
  · simp [PGliteVectorStore.checkTableExists, hready]

/-- Witness for C2: recreating the stale 384-dimension table on a store
configured at 768 yields a table whose reported width is 768. -/
theorem C2_witness :
    ∃ st', PGliteVectorStore.createTable true false store384 = (.ok (), st') ∧
      st'.dimensions = 768 ∧
      PGliteVectorStore.checkTableExists false st' = .ok ⟨true, some 768⟩ :=
  C2_createTable_dimension_invariant store384 768 rfl rfl (by decide)

/-- C8: `changeModel` swaps the active model reference and updates only the
store's in-memory intended dimensions via `setDimensions`; the physical table
(column width and all stored rows) and readiness are untouched by both
`changeModel` and `setDimensions`. -/
theorem C8_changeModel_frame (svc : ServiceState) (newModel : EModel) :
    ((VectorService.changeModel newModel svc).2.model = newModel) ∧
    ((VectorService.changeModel newModel svc).2.store.dimensions = newModel.dimensions) ∧
    ((VectorService.changeModel newModel svc).2.store.table = svc.store.table) ∧
    ((VectorService.changeModel newModel svc).2.store.ready = svc.store.ready) ∧
    (∀ (n : Nat) (st : StoreState),
      (PGliteVectorStore.setDimensions n st).table = st.table ∧
      (PGliteVectorStore.setDimensions n st).ready = st.ready ∧
      (PGliteVectorStore.setDimensions n st).dimensions = n) := by
  refine ⟨rfl, rfl, rfl, rfl, fun n st => ⟨rfl, rfl, rfl⟩⟩

/-- C9: on a ready store, a query failure during `checkTableExists`'s metadata
inspection is swallowed and reported as `{exists: false}`, while the same
failure in every other store operation (`createTable`, `insertVector`,
`searchSimilar`, `save`) propagates as an error to the caller. -/
theorem C9_only_existence_check_swallows (st : StoreState) (hready : st.ready = true)
    (force : Bool) (content : String) (v : List ℚ)
    (metric : List ℚ → List ℚ → ℚ) (q : List ℚ) (limit : Option Nat) :
    PGliteVectorStore.checkTableExists true st = .ok ⟨false, none⟩ ∧
    (PGliteVectorStore.createTable force true st).1 = .error .createFailed ∧
    (PGliteVectorStore.insertVector content v true st).1 = .error .storeFailed ∧
    PGliteVectorStore.searchSimilar metric q limit true st = .error .storeFailed ∧
    (PGliteVectorStore.save true st).1 = .error .storeFailed := by
  refine ⟨?_, ?_, ?_, ?_, ?_⟩ <;>
    simp [PGliteVectorStore.checkTableExists, PGliteVectorStore.createTable,
      PGliteVectorStore.insertVector, PGliteVectorStore.searchSimilar,
      PGliteVectorStore.save, hready]

/-- Witness for C9: faults on a concrete ready store. -/
theorem C9_witness :
    PGliteVectorStore.checkTableExists true store384 = .ok ⟨false, none⟩ ∧
    (PGliteVectorStore.createTable false true store384).1 = .error .createFailed ∧
    (PGliteVectorStore.insertVector "x" [] true store384).1 = .error .storeFailed ∧
    PGliteVectorStore.searchSimilar projMetric [] none true store384 = .error .storeFailed ∧
    (PGliteVectorStore.save true store384).1 = .error .storeFailed :=
  C9_only_existence_check_swallows store384 rfl false "x" [] projMetric [] none

/-- C10: on a ready store whose table already exists, `createTable` without
`force` succeeds and changes nothing — neither the physical table (width and
rows) nor the in-memory state — even when the configured dimensions differ
from the existing column width, which `checkTableExists` still reports. -/
theorem C10_createTable_noforce_noop (st : StoreState) (t : TableState)
    (hready : st.ready = true) (htab : st.table = some t) :
    PGliteVectorStore.createTable false false st = (.ok (), st) ∧
    PGliteVectorStore.checkTableExists false st = .ok ⟨true, some t.dim⟩ := by
  constructor
  · simp [PGliteVectorStore.createTable, hready, htab]
  · simp [PGliteVectorStore.checkTableExists, hready, htab]

/-- Witness for C10: a non-forced `createTable` on the stale 384-dimension
table configured at 768 leaves the table at 384. -/
theorem C10_witness :
    PGliteVectorStore.createTable false false store384 = (.ok (), store384) ∧
    PGliteVectorStore.checkTableExists false store384 = .ok ⟨true, some 384⟩ :=
  C10_createTable_noforce_noop store384 ⟨384, [], 1⟩ rfl rfl

/-- Helper: `compatOf` always reports the model's dimensions. -/
theorem compatOf_modelDimensions (m : Nat) (ti : TableInfo) :
    (compatOf m ti).modelDimensions = m := by
  unfold compatOf
  split <;> rfl

/-- Helper: a successful `checkTableCompatibility` reports the active model's
dimensions. -/
theorem checkCompat_ok_modelDimensions (fault : Bool) (svc : ServiceState) (comp : CompatInfo)
    (hc : VectorService.checkCompat fault svc = .ok comp) :
    comp.modelDimensions = svc.model.dimensions := by
  unfold VectorService.checkCompat checkTableCompatibility at hc
  cases hti : PGliteVectorStore.checkTableExists fault svc.store with
  | error e => rw [hti] at hc; exact absurd hc (by simp [Except.map])
  | ok ti =>
    rw [hti] at hc
    simp only [Except.map, Except.ok.injEq] at hc
    rw [← hc]
    exact compatOf_modelDimensions _ _

/-- C3: the insert command checks compatibility first; on an incompatible
result it surfaces the model and table dimensions to the confirmation modal
and performs no insertion (state unchanged); an insertion only ever executes
from a compatible state, so (for well-formed engine states) never while the
physical table's width differs from the active model's dimensions; nothing
happens when the user declines, and on confirmation the table is recreated
with `force = true` and the whole command is retried. -/
theorem C3_insert_gated_on_compatibility (svc : ServiceState) (content : String) (fault : Bool) :
    (∀ name md td svc',
      InsertNoteAsVectorCommand.execute content fault svc = (.requiresConfirmation name md td, svc') →
      svc' = svc ∧ name = svc.model.name ∧ md = svc.model.dimensions ∧
      ∃ comp, VectorService.checkCompat fault svc = .ok comp ∧ comp.compatible = false ∧
        md = comp.modelDimensions ∧ td = comp.tableDimensions.getD 0) ∧
    (∀ id svc',
      InsertNoteAsVectorCommand.execute content fault svc = (.inserted id, svc') →
      ∃ comp, VectorService.checkCompat fault svc = .ok comp ∧ comp.compatible = true) ∧
    (svc.store.WF →
      ∀ id svc' t,
        InsertNoteAsVectorCommand.execute content fault svc = (.inserted id, svc') →
        svc.store.table = some t → t.dim = svc.model.dimensions) ∧
    (InsertNoteAsVectorCommand.onConfirm content false fault svc = (.cancelled, svc)) ∧
    (∀ svc1,
      VectorService.recreateTable fault svc = (.ok (), svc1) →
      InsertNoteAsVectorCommand.onConfirm content true fault svc =
        InsertNoteAsVectorCommand.execute content fault svc1) := by
  have hexecOk : ∀ (comp : CompatInfo),
      VectorService.checkCompat fault svc = .ok comp →
      InsertNoteAsVectorCommand.execute content fault svc =
        (if comp.compatible = false then
          ((.requiresConfirmation svc.model.name comp.modelDimensions
              (comp.tableDimensions.getD 0) : InsertOutcome), svc)
        else
          match VectorService.insertContent content fault svc with
          | (.error _, svc') => (.errorNotice, svc')
          | (.ok id, svc') => (.inserted id, svc')) := by
    intro comp hc
    unfold InsertNoteAsVectorCommand.execute
    rw [hc]
  refine ⟨?_, ?_, ?_, rfl, ?_⟩
  · intro name md td svc' h
    cases hc : VectorService.checkCompat fault svc with
    | error e =>
      unfold InsertNoteAsVectorCommand.execute at h
      rw [hc] at h
      exact absurd h (by simp)
    | ok comp =>
      rw [hexecOk comp hc] at h
      by_cases hcomp : comp.compatible = false
      · rw [if_pos hcomp] at h
        obtain ⟨h1, h2⟩ := Prod.mk.injEq .. ▸ h
        cases h1
        exact ⟨h2.symm, rfl, checkCompat_ok_modelDimensions fault svc comp hc,
          comp, rfl, hcomp, rfl, rfl⟩
      · rw [if_neg hcomp] at h
        rcases hi : VectorService.insertContent content fault svc with ⟨r, svci⟩
        rw [hi] at h
        cases r <;> simp at h
  · intro id svc' h
    cases hc : VectorService.checkCompat fault svc with
    | error e =>
      unfold InsertNoteAsVectorCommand.execute at h
      rw [hc] at h
      exact absurd h (by simp)
    | ok comp =>
      rw [hexecOk comp hc] at h
      by_cases hcomp : comp.compatible = false
      · rw [if_pos hcomp] at h
        exact absurd h (by simp)
      · refine ⟨comp, rfl, ?_⟩
        cases hb : comp.compatible
        · exact absurd hb hcomp
        · rfl
  · intro hwf id svc' t h htab
    cases hr : svc.store.ready with
    | false =>
      have hc : VectorService.checkCompat fault svc = .error .notReady := by
        simp [VectorService.checkCompat, checkTableCompatibility,
          PGliteVectorStore.checkTableExists, hr, Except.map]
      unfold InsertNoteAsVectorCommand.execute at h
      rw [hc] at h
      exact absurd h (by simp)
    | true =>
      cases hf : fault with
      | true =>
        subst hf
        have hc : VectorService.checkCompat true svc = .ok ⟨true, none, svc.model.dimensions⟩ := by
          simp [VectorService.checkCompat, checkTableCompatibility,
            PGliteVectorStore.checkTableExists, compatOf, falsyDim, hr, Except.map]
        rw [hexecOk _ hc] at h
        rw [if_neg (by simp)] at h
        have hins : (VectorService.insertContent content true svc).1 = .error .storeFailed := by
          simp [VectorService.insertContent, PGliteVectorStore.insertVector, hr]
        rcases hi : VectorService.insertContent content true svc with ⟨r, svci⟩
        rw [hi] at hins
        rw [hi] at h
        cases r with
        | error e => simp at h
        | ok v => simp at hins
      | false =>
        subst hf
        have hti : PGliteVectorStore.checkTableExists false svc.store = .ok ⟨true, some t.dim⟩ := by
          simp [PGliteVectorStore.checkTableExists, hr, htab]
        have hc : VectorService.checkCompat false svc =
            .ok (compatOf svc.model.dimensions ⟨true, some t.dim⟩) := by
          simp [VectorService.checkCompat, checkTableCompatibility, hti, Except.map]
        have hdpos : 1 ≤ t.dim := hwf t htab
        have hfd : falsyDim (some t.dim) = false := by
          simp [falsyDim, Nat.one_le_iff_ne_zero.mp hdpos]
        by_cases hdim : t.dim = svc.model.dimensions
        · exact hdim
        · exfalso
          have hcompat : (compatOf svc.model.dimensions ⟨true, some t.dim⟩).compatible = false := by
            simp [compatOf, hfd, hdim]
          rw [hexecOk _ hc] at h
          rw [if_pos hcompat] at h
          simp at h
  · intro svc1 hrec
    unfold InsertNoteAsVectorCommand.onConfirm
    rw [if_pos rfl, hrec]

/-- Witness for C3: with the stale 384-dimension table and the 768-dimension
model, the insert command surfaces `modelDimensions = 768` and
`tableDimensions = 384` and leaves the state untouched. -/
theorem C3_witness :
    (⟨modelB, store384⟩ : ServiceState) = ⟨modelB, store384⟩ ∧
    "modelB" = modelB.name ∧ (768 : Nat) = modelB.dimensions ∧
    ∃ comp, VectorService.checkCompat false ⟨modelB, store384⟩ = .ok comp ∧
      comp.compatible = false ∧ (768 : Nat) = comp.modelDimensions ∧
      (384 : Nat) = comp.tableDimensions.getD 0 :=
  (C3_insert_gated_on_compatibility ⟨modelB, store384⟩ "note" false).1
    "modelB" 768 384 ⟨modelB, store384⟩ rfl

/-- C5 (counterexample): with a ready store whose table width equals the
model's declared 3 dimensions and a `generateEmbedding` stub returning a
vector of length 2, `insertContent` does NOT succeed: the engine rejects the
width mismatch, so "insertion still succeeds" fails as a universal claim. -/
theorem C5_counterexample :
    (stubModel.generateEmbedding "x").length ≠ stubModel.dimensions ∧
    (VectorService.insertContent "x" false ⟨stubModel, readyStore3⟩).1 =
      .error .storeFailed := by
  exact ⟨by decide, by decide⟩

/-- C5 (amended): the service-level length check against the model's declared
dimensions is advisory — it only warns and never raises.  On a ready store
with an existing table, insertion succeeds exactly when the returned vector's
length matches the physical column width: then the stored vector is the
returned vector as-is (its length may still differ from the model's declared
dimensions); otherwise the failure is the engine's width constraint, not the
advisory check. -/
theorem C5_advisory_length_check (svc : ServiceState) (content : String) (t : TableState)
    (hready : svc.store.ready = true) (htab : svc.store.table = some t) :
    ((svc.model.generateEmbedding content).length = t.dim →
      VectorService.insertContent content false svc =
        (.ok t.nextId,
         { svc with store :=
            { svc.store with table := some ⟨t.dim,
                t.rows ++ [⟨t.nextId, content, svc.model.generateEmbedding content⟩],
                t.nextId + 1⟩ } })) ∧
    ((svc.model.generateEmbedding content).length ≠ t.dim →
      VectorService.insertContent content false svc = (.error .storeFailed, svc)) := by
  constructor
  · intro hlen
    simp [VectorService.insertContent, PGliteVectorStore.insertVector,
      PGliteVectorStore.save, hready, htab, hlen]
  · intro hlen
    simp [VectorService.insertContent, PGliteVectorStore.insertVector,
      PGliteVectorStore.save, hready, htab, hlen]

/-- Witness for C5: a model declaring 3 dimensions whose stub returns a
2-component vector inserts successfully into a table of width 2, storing the
wrong-length vector unchanged. -/
theorem C5_witness :
    VectorService.insertContent "x" false ⟨stubModel, ⟨true, 3, some ⟨2, [], 1⟩⟩⟩ =
      (.ok 1,
       ⟨stubModel, ⟨true, 3, some ⟨2, [⟨1, "x", [1, 1]⟩], 2⟩⟩⟩) :=
  (C5_advisory_length_check ⟨stubModel, ⟨true, 3, some ⟨2, [], 1⟩⟩⟩ "x" ⟨2, [], 1⟩
    rfl rfl).1 (by decide)

/-- C6: a search issued while the vector table does not exist surfaces the
user-facing "table does not exist" condition (the spec's `NoTableError`),
distinct from a compatibility conflict and from a store error, with no
similarity query executed (the store-level query on this state would have
been a `storeFailed` error, not this outcome). -/
theorem C6_search_requires_table (metric : List ℚ → List ℚ → ℚ) (content : String)
    (limit : Option Nat) (svc : ServiceState)
    (hready : svc.store.ready = true) (habs : svc.store.table = none) :
    SearchSimilarToNoteCommand.execute metric content limit false svc = .noTable ∧
    (∀ rows, SearchSimilarToNoteCommand.execute metric content limit false svc ≠ .results rows) ∧
    PGliteVectorStore.searchSimilar metric (svc.model.generateEmbedding content)
      limit false svc.store = .error .storeFailed := by
  refine ⟨?_, ?_, ?_⟩
  · simp [SearchSimilarToNoteCommand.execute, PGliteVectorStore.checkTableExists,
      hready, habs]
  · intro rows
    simp [SearchSimilarToNoteCommand.execute, PGliteVectorStore.checkTableExists,
      hready, habs]
  · simp [PGliteVectorStore.searchSimilar, hready, habs]

/-- Witness for C6: searching with no table present reports `noTable`. -/
theorem C6_witness :
    SearchSimilarToNoteCommand.execute projMetric "q" none false ⟨modelB, emptyStore⟩ = .noTable ∧
    (∀ rows, SearchSimilarToNoteCommand.execute projMetric "q" none false ⟨modelB, emptyStore⟩ ≠
      .results rows) ∧
    PGliteVectorStore.searchSimilar projMetric (modelB.generateEmbedding "q")
      none false emptyStore = .error .storeFailed :=
  C6_search_requires_table projMetric "q" none ⟨modelB, emptyStore⟩ rfl rfl

/-- C7: on a ready store with an existing table, `searchSimilar` returns at
most `limit` rows, ordered ascending by distance to the query vector
(strictly ascending when the stored rows' distances are pairwise distinct),
and an omitted limit defaults to 5. -/
theorem C7_search_order_and_limit (metric : List ℚ → List ℚ → ℚ) (q : List ℚ)
    (st : StoreState) (t : TableState)
    (hready : st.ready = true) (htab : st.table = some t) :
    (∀ (limit : Nat) (rows : List SearchRow),
      PGliteVectorStore.searchSimilar metric q (some limit) false st = .ok rows →
      rows.length ≤ limit ∧
      rows.Pairwise rowLE ∧
      ((t.rows.map fun r => metric q r.embedding).Nodup →
        rows.Pairwise fun a b => a.distance < b.distance)) ∧
    PGliteVectorStore.searchSimilar metric q none false st =
      PGliteVectorStore.searchSimilar metric q (some 5) false st := by
  have hbase : ∀ (limit : Option Nat),
      PGliteVectorStore.searchSimilar metric q limit false st =
        .ok ((List.insertionSort rowLE
              (t.rows.map fun r => SearchRow.mk r.id r.content (metric q r.embedding))).take
            (limit.getD 5)) := by
    intro limit
    simp [PGliteVectorStore.searchSimilar, hready, htab]
  constructor
  · intro limit rows h
    rw [hbase (some limit)] at h
    injection h with h
    subst h
    set l := t.rows.map fun r => SearchRow.mk r.id r.content (metric q r.embedding) with hl
    set s := List.insertionSort rowLE l with hs
    have hsort : s.Pairwise rowLE := List.sorted_insertionSort rowLE l
    refine ⟨?_, ?_, ?_⟩
    · rw [List.length_take]
      exact min_le_left _ _
    · exact List.Pairwise.sublist (List.take_sublist _ _) hsort
    · intro hnodup
      have hperm : s.Perm l := List.perm_insertionSort rowLE l
      have hld : l.map SearchRow.distance = t.rows.map fun r => metric q r.embedding := by
        rw [hl, List.map_map]
        rfl
      have hnodups : (s.map SearchRow.distance).Nodup :=
        ((hperm.map SearchRow.distance).nodup_iff).2 (hld ▸ hnodup)
      have hpw_ne : s.Pairwise fun a b => a.distance ≠ b.distance :=
        (List.pairwise_map).1 hnodups
      have hlt : s.Pairwise fun a b => a.distance < b.distance :=
        List.Pairwise.imp₂ (fun _ _ h1 h2 => lt_of_le_of_ne h1 h2) hsort hpw_ne
      exact List.Pairwise.sublist (List.take_sublist _ _) hlt
  · rw [hbase none, hbase (some 5)]
    rfl

/-- Witness for C7: three rows at distances 3, 1, 2 from the query come back
as distances 1, 2, 3 — at most 3 rows, strictly ascending. -/
theorem C7_witness :
    ([⟨2, "b", 1⟩, ⟨3, "c", 2⟩, ⟨1, "a", 3⟩] : List SearchRow).length ≤ 3 ∧
    ([⟨2, "b", 1⟩, ⟨3, "c", 2⟩, ⟨1, "a", 3⟩] : List SearchRow).Pairwise rowLE ∧
    ((([⟨1, "a", [3, 0]⟩, ⟨2, "b", [1, 0]⟩, ⟨3, "c", [2, 0]⟩] :
        List VectorRow).map fun r => projMetric [0, 0] r.embedding).Nodup →
      ([⟨2, "b", 1⟩, ⟨3, "c", 2⟩, ⟨1, "a", 3⟩] : List SearchRow).Pairwise
        fun a b => a.distance < b.distance) :=
  (C7_search_order_and_limit projMetric [0, 0] storeC7
      ⟨2, [⟨1, "a", [3, 0]⟩, ⟨2, "b", [1, 0]⟩, ⟨3, "c", [2, 0]⟩], 4⟩ rfl rfl).1
    3 [⟨2, "b", 1⟩, ⟨3, "c", 2⟩, ⟨1, "a", 3⟩] (by decide)

/-- C4 (counterexample): the service-level `searchSimilar` does not convert
distances: with a stored row at distance 4, the value exposed to the caller
is the raw distance 4, not the similarity 1 - 4. -/
theorem C4_counterexample :
    VectorService.searchSimilar projMetric "q" none false ⟨modelC4, storeC4⟩ =
      .ok [⟨1, "a", 4⟩] ∧
    (4 : ℚ) ≠ 1 - 4 := by
  exact ⟨by decide, by norm_num⟩

/-- C4 (amended): the service-level `searchSimilar` delegates to the store
and returns its rows unchanged — each returned row carries the raw distance
`metric(queryEmbedding, storedEmbedding)` of some stored row; the
`similarity = 1 - distance` conversion is applied only in the results modal's
display formatting, which renders `(1 - distance) * 100` as a percentage. -/
theorem C4_searchSimilar_returns_raw_distance (metric : List ℚ → List ℚ → ℚ)
    (content : String) (limit : Option Nat) (svc : ServiceState) (rows : List SearchRow)
    (h : VectorService.searchSimilar metric content limit false svc = .ok rows) :
    (VectorService.searchSimilar metric content limit false svc =
      PGliteVectorStore.searchSimilar metric (svc.model.generateEmbedding content)
        limit false svc.store) ∧
    (∃ t, svc.store.table = some t ∧
      ∀ r ∈ rows, ∃ row ∈ t.rows,
        r = ⟨row.id, row.content, metric (svc.model.generateEmbedding content) row.embedding⟩) ∧
    (∀ d, displaySimilarityPercent d = (1 - d) * 100) := by
  refine ⟨rfl, ?_, fun d => rfl⟩
  cases hr : svc.store.ready with
  | false =>
    rw [VectorService.searchSimilar, PGliteVectorStore.searchSimilar, hr] at h
    exact absurd h (by simp)
  | true =>
    cases htab : svc.store.table with
    | none =>
      rw [VectorService.searchSimilar, PGliteVectorStore.searchSimilar, hr, htab] at h
      exact absurd h (by simp)
    | some t =>
      have heq : (List.insertionSort rowLE
          (t.rows.map fun row => SearchRow.mk row.id row.content
            (metric (svc.model.generateEmbedding content) row.embedding))).take
          (limit.getD 5) = rows := by
        rw [VectorService.searchSimilar, PGliteVectorStore.searchSimilar, hr, htab] at h
        simpa using h
      refine ⟨t, rfl, ?_⟩
      intro r hr'
      rw [← heq] at hr'
      have hmem1 : r ∈ List.insertionSort rowLE
          (t.rows.map fun row => SearchRow.mk row.id row.content
            (metric (svc.model.generateEmbedding content) row.embedding)) :=
        (List.take_sublist _ _).subset hr'
      have hmem2 : r ∈ t.rows.map fun row => SearchRow.mk row.id row.content
          (metric (svc.model.generateEmbedding content) row.embedding) :=
        (List.perm_insertionSort rowLE _).subset hmem1
      obtain ⟨row, hrow, hr2⟩ := List.mem_map.1 hmem2
      exact ⟨row, hrow, hr2.symm⟩

/-- Witness for C4 (amended): the single stored row comes back with its raw
distance 4 attached. -/
theorem C4_witness :
    (VectorService.searchSimilar projMetric "q" none false ⟨modelC4, storeC4⟩ =
      PGliteVectorStore.searchSimilar projMetric (modelC4.generateEmbedding "q")
        none false storeC4) ∧
    (∃ t, storeC4.table = some t ∧
      ∀ r ∈ ([⟨1, "a", 4⟩] : List SearchRow), ∃ row ∈ t.rows,
        r = ⟨row.id, row.content, projMetric (modelC4.generateEmbedding "q") row.embedding⟩) ∧
    (∀ d, displaySimilarityPercent d = (1 - d) * 100) :=
  C4_searchSimilar_returns_raw_distance projMetric "q" none ⟨modelC4, storeC4⟩
    [⟨1, "a", 4⟩] (by decide)

end ObsidianPGlite
